import Mathlib

/-!
Verification of the ClauseWise legal-document analyzer core
(`src/app.py`, class `LegalDocumentAnalyzer` and the `analyze_document`
route) against its natural-language specification.

Texts are modelled as `List Char` (Python `str`); Python integers as
`Nat`/`Int`; Python floats appearing in the analyzer as exact rationals
`ℚ` (noted at each definition where the float/rational distinction could
matter).
-/

namespace ClauseWise

/-- Python `s.lower()`: lower-case every character. -/
def lowerStr (s : List Char) : List Char := s.map Char.toLower

/-- Python `needle in hay` (substring containment test). `"" in s` is true. -/
def containsSub (needle : List Char) : List Char → Bool
  | [] => needle.isPrefixOf []
  | c :: rest => needle.isPrefixOf (c :: rest) || containsSub needle rest

/-- Python `text.split('.')`: split on the literal period character.
Always returns at least one (possibly empty) piece. -/
def splitDot : List Char → List (List Char)
  | [] => [[]]
  | c :: rest =>
    match splitDot rest with
    | [] => [[]]
    | s :: ss => if c = '.' then [] :: s :: ss else (c :: s) :: ss

/-- Python `s.strip()`: remove leading and trailing whitespace. -/
def stripStr (s : List Char) : List Char :=
  ((s.dropWhile Char.isWhitespace).reverse.dropWhile Char.isWhitespace).reverse

/-- `self.clause_patterns` from `LegalDocumentAnalyzer.__init__`: the ten
clause categories with their pattern lists, in insertion (= iteration)
order. Every pattern literal is metacharacter-free, so `re.search` on it
is exactly substring containment. -/
def clausePatterns : List (String × List String) :=
  [("payment", ["payment", "fee", "cost", "price", "remuneration", "compensation"]),
   ("termination", ["terminate", "end", "expire", "cancel", "dissolution"]),
   ("liability", ["liable", "liability", "responsible", "damages", "loss"]),
   ("confidentiality", ["confidential", "non-disclosure", "proprietary", "trade secret"]),
   ("intellectual_property", ["copyright", "patent", "trademark", "intellectual property", "IP"]),
   ("warranty", ["warrant", "guarantee", "representation", "condition"]),
   ("dispute_resolution", ["dispute", "arbitration", "mediation", "court", "jurisdiction"]),
   ("force_majeure", ["force majeure", "act of god", "unforeseeable", "beyond control"]),
   ("governing_law", ["governing law", "applicable law", "jurisdiction", "venue"]),
   ("amendment", ["amend", "modify", "change", "alter", "update"])]

/-- `self.risk_keywords['high']`. -/
def riskHigh : List String :=
  ["penalty", "breach", "default", "liquidated damages", "forfeit", "void", "null"]

/-- `self.risk_keywords['medium']`. -/
def riskMedium : List String :=
  ["may", "discretion", "reasonable", "commercially reasonable", "best efforts"]

/-- `self.risk_keywords['low']`. -/
def riskLow : List String :=
  ["shall", "will", "must", "required", "mandatory"]

/-- `sum(1 for keyword in tier if keyword in text_lower)`: the number of
tier keywords PRESENT in the text (each keyword contributes at most 1,
however many times it occurs). -/
def tierCount (tier : List String) (textLower : List Char) : Nat :=
  tier.countP fun k => containsSub k.toList textLower

/-- `LegalDocumentAnalyzer._assess_risk_level`. -/
def assessRiskLevel (text : List Char) : String :=
  let textLower := lowerStr text
  let highRiskCount := tierCount riskHigh textLower
  let mediumRiskCount := tierCount riskMedium textLower
  let lowRiskCount := tierCount riskLow textLower
  if highRiskCount > 0 then "high"
  else if mediumRiskCount > lowRiskCount then "medium"
  else "low"

/-- `legal_keywords` in `_calculate_importance_score`. -/
def legalKeywords : List String := ["shall", "liable", "damages", "breach", "default"]

/-- `important_types` in `_calculate_importance_score`. -/
def importantTypes : List String :=
  ["liability", "payment", "termination", "intellectual_property"]

/-- `LegalDocumentAnalyzer._calculate_importance_score`: base 5, +2 per
important clause type, +1 if the raw text is longer than 200 characters,
plus `min(keyword_count, 3)` over the legal keywords, clamped to 10. -/
def calculateImportanceScore (text : List Char) (clauseTypes : List String) : Nat :=
  let baseScore := 5
  let baseScore := baseScore + 2 * (clauseTypes.countP fun t => t ∈ importantTypes)
  let baseScore := baseScore + (if text.length > 200 then 1 else 0)
  let keywordCount := legalKeywords.countP fun k => containsSub k.toList (lowerStr text)
  let baseScore := baseScore + min keywordCount 3
  min baseScore 10

/-- One element of the `clauses` list built by
`LegalDocumentAnalyzer.classify_clauses`. -/
structure ClauseRecord where
  id : Nat
  text : List Char
  types : List String
  risk_level : String
  importance_score : Nat
  position : Nat
  deriving DecidableEq, Repr

/-- `LegalDocumentAnalyzer.classify_clauses`: split on periods, skip
segments whose stripped length is below 20, tag each remaining segment
with every category one of whose patterns occurs in the lower-cased
segment (the per-category `break` makes the inner loop an `any`), and
emit a record only when at least one category matched. -/
def classifyClauses (text : List Char) : List ClauseRecord :=
  (splitDot text).enum.filterMap fun is =>
    let i := is.1
    let sentence := is.2
    if (stripStr sentence).length < 20 then none
    else
      let sentenceLower := lowerStr sentence
      let clauseTypes := (clausePatterns.filter fun cp =>
        cp.2.any fun p => containsSub p.toList sentenceLower).map Prod.fst
      if clauseTypes.isEmpty then none
      else some
        { id := i
          text := stripStr sentence
          types := clauseTypes
          risk_level := assessRiskLevel sentence
          importance_score := calculateImportanceScore sentence clauseTypes
          position := i }

/-- Number of (possibly overlapping) occurrences of `needle` as a
substring: the number of starting positions at which it occurs. This is
the spec's reading of "occurrence counts" ("a keyword appearing n times
in the text contributes n"); it is NOT what the code computes, and is
defined here only to compare the spec's words with the source. -/
def occCount (needle : List Char) : List Char → Nat
  | [] => if needle.isPrefixOf [] then 1 else 0
  | c :: rest => (if needle.isPrefixOf (c :: rest) then 1 else 0) + occCount needle rest

/-- Spec-worded tier count: total occurrence count over a tier's keywords. -/
def tierOccCount (tier : List String) (textLower : List Char) : Nat :=
  (tier.map fun k => occCount k.toList textLower).sum

/-- `self.boilerplate_patterns` from `__init__`, in order. All six are
metacharacter-free regex literals, so `re.search` is substring containment. -/
def boilerplatePatterns : List String :=
  ["this agreement shall be governed by",
   "entire agreement",
   "severability",
   "no waiver",
   "counterparts",
   "headings are for convenience only"]

/-- One element of the list built by `detect_boilerplate`. Confidence is
the Python float literal `0.8`, modelled as the exact rational 4/5. -/
structure BoilerplateMatch where
  id : Nat
  text : List Char
  pattern_matched : String
  confidence : ℚ
  deriving DecidableEq, Repr

/-- The inner pattern loop of `detect_boilerplate` for one segment: scan
the six patterns in order over the lower-cased segment; the `break`
after the first hit makes this a `find?`. -/
def firstBoilerplate (sentence : List Char) : Option String :=
  boilerplatePatterns.find? fun p => containsSub p.toList (lowerStr sentence)

/-- `LegalDocumentAnalyzer.detect_boilerplate`: for each period-split
segment (no length filter), emit at most one match — the first pattern
that fires — with constant confidence 0.8. -/
def detectBoilerplate (text : List Char) : List BoilerplateMatch :=
  (splitDot text).enum.filterMap fun is =>
    let i := is.1
    let sentence := is.2
    match firstBoilerplate sentence with
    | some p => some { id := i, text := stripStr sentence, pattern_matched := p, confidence := 4/5 }
    | none => none

/-- The set of clause types over a document's clause records, as built by
the two accumulation loops in `compare_documents` (Python `set`s, modelled
as `Finset String`). -/
def docTypes (text : List Char) : Finset String :=
  (classifyClauses text).foldl (fun acc c => c.types.foldl (fun a t => insert t a) acc) ∅

/-- The comparison dictionary built by `compare_documents` (only the
type-set fields; the `*_unique_clauses`, `common_clauses` and
`differences` fields are left as the empty lists the code never fills).
Python materializes the sets with `list(...)` in arbitrary order; the
model keeps them as sets, which is the granularity the spec compares at. -/
structure ComparisonResult where
  doc1_unique_types : Finset String
  doc2_unique_types : Finset String
  common_types : Finset String
  deriving DecidableEq

/-- `LegalDocumentAnalyzer.compare_documents`. -/
def compareDocuments (doc1Text doc2Text : List Char) : ComparisonResult :=
  let doc1Types := docTypes doc1Text
  let doc2Types := docTypes doc2Text
  { doc1_unique_types := doc1Types \ doc2Types
    doc2_unique_types := doc2Types \ doc1Types
    common_types := doc1Types ∩ doc2Types }

/-- Round-half-to-even to an integer, the tie rule Python's `round` uses. -/
def roundHalfEven (q : ℚ) : ℤ :=
  let f := ⌊q⌋
  if q - f < 1/2 then f
  else if q - f > 1/2 then f + 1
  else if f % 2 = 0 then f else f + 1

/-- Python `round(x, 2)` modelled over exact rationals (the float
argument is binary, so on non-representable values CPython may round the
last digit differently; the claims checked here never depend on that). -/
def round2 (q : ℚ) : ℚ := (roundHalfEven (q * 100) : ℚ) / 100

/-- Python `round(x, 1)`, same modelling note as `round2`. -/
def round1 (q : ℚ) : ℚ := (roundHalfEven (q * 10) : ℚ) / 10

/-- `avg_importance_score` in the `statistics` dict assembled by the
`analyze_document` route:
`round(sum(c['importance_score'] for c in clauses) / len(clauses), 2) if clauses else 0`. -/
def avgImportanceScore (text : List Char) : ℚ :=
  let clauses := classifyClauses text
  if clauses.isEmpty then 0
  else round2 (((clauses.map fun c => (c.importance_score : ℚ)).sum) / clauses.length)

/-- `formal_indicators` in `analyze_tone`. -/
def formalIndicators : List String := ["shall", "hereby", "whereas", "pursuant", "notwithstanding"]

/-- `assertive_indicators` in `analyze_tone`. -/
def assertiveIndicators : List String := ["must", "required", "mandatory", "obligation", "duty"]

/-- `risky_indicators` in `analyze_tone`. -/
def riskyIndicators : List String := ["penalty", "breach", "default", "terminate", "void"]

/-- The dict returned by `analyze_tone`. Scores are Python floats,
modelled as exact rationals. -/
structure ToneProfile where
  overall_sentiment : String
  formality_score : ℚ
  assertiveness_score : ℚ
  risk_tone : String
  deriving DecidableEq, Repr

/-- `text.split('.')[:10]` — the sampled segments `analyze_tone` scans. -/
def toneSentences (text : List Char) : List (List Char) := (splitDot text).take 10

/-- `LegalDocumentAnalyzer.analyze_tone`, non-fallback path (the
`sentiment_analyzer` backend is available). Counts indicator presence
over the first ten segments, normalizes by the sampled segment count,
and returns the fixed label "formal" as `overall_sentiment`. -/
def analyzeTone (text : List Char) : ToneProfile :=
  let sentences := toneSentences text
  let count := fun (indicators : List String) =>
    (sentences.map fun s => tierCount indicators (lowerStr s)).sum
  let formalityScore := count formalIndicators
  let assertivenessScore := count assertiveIndicators
  let riskToneScore := count riskyIndicators
  let maxScore := sentences.length
  let formalityScore : ℚ := min (((formalityScore : ℚ) / maxScore) * 10) 10
  let assertivenessScore : ℚ := min (((assertivenessScore : ℚ) / maxScore) * 10) 10
  let riskTone := if riskToneScore < 2 then "low"
    else if riskToneScore < 5 then "moderate" else "high"
  { overall_sentiment := "formal"
    formality_score := round1 formalityScore
    assertiveness_score := round1 assertivenessScore
    risk_tone := riskTone }

/-- The fallback dict `analyze_tone` returns when no sentiment backend
is loaded. -/
def analyzeToneFallback : ToneProfile :=
  { overall_sentiment := "neutral"
    formality_score := 7
    assertiveness_score := 5
    risk_tone := "moderate" }

/-- Abstract syntax of the small regex fragment the timeline patterns
use: literal characters (matched case-insensitively, the patterns run
under `re.IGNORECASE`), `\d`, `\s`, `\b`, concatenation, alternation,
bounded repetition `{lo,hi}` (with `?` as `{0,1}`) and `+`. -/
inductive RE : Type
  | eps
  | ch (c : Char)
  | digit
  | space
  | wordB
  | seq (a b : RE)
  | alt (a b : RE)
  | rep (a : RE) (lo hi : Nat)
  | plus (a : RE)

/-- A literal string as a regex. -/
def RE.lit (s : String) : RE := s.toList.foldr (fun c r => RE.seq (RE.ch c) r) RE.eps

/-- Concatenation of a list of regexes. -/
def RE.seqs (rs : List RE) : RE := rs.foldr RE.seq RE.eps

/-- Left-to-right alternation `r1|r2|...|rn` (Python tries branches in
order, first success wins). -/
def RE.alts : List RE → RE
  | [] => RE.eps
  | [r] => r
  | r :: rs => RE.alt r (RE.alts rs)

/-- Python's `\w` class for `\b` boundary purposes (ASCII view). -/
def isWordChar (c : Char) : Bool := c.isAlphanum || c = '_'

/-- Backtracking matcher. `reMatch fuel r prev s` returns the list of
`(last consumed char, remaining input)` states after matching `r` at the
head of `s`, in Python's backtracking priority order: alternation tries
the left branch first and quantifiers are greedy (longer matches first),
so the head of the list is the match Python's engine commits to. `prev`
is the character just before the current position, needed by `\b`. The
fuel only bounds recursion depth; callers pass enough for any match over
their input. -/
def reMatch : Nat → RE → Option Char → List Char → List (Option Char × List Char)
  | 0, _, _, _ => []
  | _+1, RE.eps, prev, s => [(prev, s)]
  | _+1, RE.ch c, _, s =>
    match s with
    | [] => []
    | d :: rest => if d.toLower = c.toLower then [(some d, rest)] else []
  | _+1, RE.digit, _, s =>
    match s with
    | [] => []
    | d :: rest => if d.isDigit then [(some d, rest)] else []
  | _+1, RE.space, _, s =>
    match s with
    | [] => []
    | d :: rest => if d.isWhitespace then [(some d, rest)] else []
  | _+1, RE.wordB, prev, s =>
    let before := match prev with | none => false | some c => isWordChar c
    let after := match s with | [] => false | c :: _ => isWordChar c
    if before != after then [(prev, s)] else []
  | fuel+1, RE.seq a b, prev, s =>
    (reMatch fuel a prev s).flatMap fun pr => reMatch fuel b pr.1 pr.2
  | fuel+1, RE.alt a b, prev, s => reMatch fuel a prev s ++ reMatch fuel b prev s
  | fuel+1, RE.rep a lo hi, prev, s =>
    match hi with
    | 0 => if lo = 0 then [(prev, s)] else []
    | hi' + 1 =>
      let more := (reMatch fuel a prev s).flatMap fun pr =>
        reMatch fuel (RE.rep a (lo - 1) hi') pr.1 pr.2
      if lo = 0 then more ++ [(prev, s)] else more
  | fuel+1, RE.plus a, prev, s =>
    (reMatch fuel a prev s).flatMap fun pr =>
      reMatch fuel (RE.plus a) pr.1 pr.2 ++ [pr]

/-- Scan for non-overlapping matches left to right, as `re.findall`
does: at each position try the pattern, on success record the match and
resume after it, otherwise advance one character. -/
def findallAux (pat : RE) : Nat → Option Char → List Char → List (List Char)
  | 0, _, _ => []
  | fuel+1, prev, s =>
    match (reMatch (2 * s.length + 400) pat prev s).head? with
    | some (p, rest) =>
      let consumed := s.length - rest.length
      if consumed = 0 then
        match s with
        | [] => []
        | c :: cs => findallAux pat fuel (some c) cs
      else (s.take consumed) :: findallAux pat fuel p rest
    | none =>
      match s with
      | [] => []
      | c :: cs => findallAux pat fuel (some c) cs

/-- `re.findall(pat, s, re.IGNORECASE)`, except that each element is the
full matched substring: Python's `findall` returns the captured groups
instead when the pattern contains groups (so `'after 30 days'` comes
back as `('after', 'days')` there). The number of elements — hence
emptiness, which is all the analyzer tests — is identical. -/
def reFindall (pat : RE) (s : List Char) : List (List Char) :=
  findallAux pat (s.length + 1) none s

/-- The month alternation shared by two of the `date_patterns`. -/
def monthNames : List String :=
  ["January", "February", "March", "April", "May", "June", "July",
   "August", "September", "October", "November", "December"]

/-- `(January|February|...|December)`. -/
def monthRE : RE := RE.alts (monthNames.map RE.lit)

/-- `(days?|weeks?|months?|years?)`. -/
def timeUnitRE : RE := RE.alts
  [RE.seq (RE.lit "day") (RE.rep (RE.ch 's') 0 1),
   RE.seq (RE.lit "week") (RE.rep (RE.ch 's') 0 1),
   RE.seq (RE.lit "month") (RE.rep (RE.ch 's') 0 1),
   RE.seq (RE.lit "year") (RE.rep (RE.ch 's') 0 1)]

/-- `date_patterns` from `extract_timeline_info`, in order. -/
def datePatterns : List RE :=
  [RE.seqs [RE.wordB, RE.rep RE.digit 1 2, RE.ch '/', RE.rep RE.digit 1 2, RE.ch '/',
            RE.rep RE.digit 4 4, RE.wordB],
   RE.seqs [RE.wordB, RE.rep RE.digit 1 2, RE.ch '-', RE.rep RE.digit 1 2, RE.ch '-',
            RE.rep RE.digit 4 4, RE.wordB],
   RE.seqs [RE.wordB, monthRE, RE.plus RE.space, RE.rep RE.digit 1 2,
            RE.rep (RE.ch ',') 0 1, RE.plus RE.space, RE.rep RE.digit 4 4, RE.wordB],
   RE.seqs [RE.wordB, RE.rep RE.digit 1 2, RE.plus RE.space, monthRE,
            RE.plus RE.space, RE.rep RE.digit 4 4, RE.wordB]]

/-- `duration_patterns` from `extract_timeline_info`, in order. -/
def durationPatterns : List RE :=
  [RE.seqs [RE.wordB, RE.plus RE.digit, RE.plus RE.space, timeUnitRE, RE.wordB],
   RE.seqs [RE.wordB, RE.alts [RE.lit "within", RE.lit "after", RE.lit "before"],
            RE.plus RE.space, RE.plus RE.digit, RE.plus RE.space, timeUnitRE, RE.wordB],
   RE.seqs [RE.wordB, RE.plus RE.digit, RE.plus RE.space,
            RE.alts [RE.lit "day", RE.lit "week", RE.lit "month", RE.lit "year"],
            RE.plus RE.space, RE.alts [RE.lit "period", RE.lit "term"], RE.wordB]]

/-- `deadline_keywords` from `extract_timeline_info`. -/
def deadlineKeywords : List String :=
  ["deadline", "due date", "expiry", "termination date", "completion date"]

/-- One element of the list built by `extract_timeline_info`
(`sentence_timeline` in the code). -/
structure SentenceTimeline where
  sentence_id : Nat
  text : List Char
  dates : List (List Char)
  durations : List (List Char)
  deadlines : List String
  deriving DecidableEq, Repr

/-- `LegalDocumentAnalyzer.extract_timeline_info`: every period-split
segment is scanned (no minimum-length filter); an entry is emitted iff
at least one of the three match lists is non-empty. -/
def extractTimelineInfo (text : List Char) : List SentenceTimeline :=
  (splitDot text).enum.filterMap fun is =>
    let i := is.1
    let sentence := is.2
    let dates := datePatterns.flatMap fun p => reFindall p sentence
    let durations := durationPatterns.flatMap fun p => reFindall p sentence
    let deadlines := deadlineKeywords.filter fun k =>
      containsSub (lowerStr k.toList) (lowerStr sentence)
    if dates.isEmpty && durations.isEmpty && deadlines.isEmpty then none
    else some { sentence_id := i, text := stripStr sentence,
                dates := dates, durations := durations, deadlines := deadlines }

/-- The mean importance score over a document's clause records,
`sum(c['importance_score'] for c in clauses) / len(clauses)`. -/
def importanceMean (text : List Char) : ℚ :=
  ((classifyClauses text).map fun c => (c.importance_score : ℚ)).sum /
    (classifyClauses text).length

/-- The spec's worked classification scenario text. -/
def scenarioText : List Char :=
  "This Agreement shall terminate after 30 days. The Client shall pay a penalty fee for any breach.".toList

/-- The spec's boilerplate scenario text. -/
def delawareText : List Char :=
  "This agreement shall be governed by the laws of Delaware.".toList

/-- A document whose segments are all shorter than 20 characters once
trimmed, yet trigger the timeline pass (deadline cue "expiry") and the
boilerplate pass (the "severability" pattern). -/
def shortSegText : List Char := "expiry. severability.".toList

/-! Helper lemmas. -/

/-- Unpacking membership in `classifyClauses`: every emitted record comes
from the segment at its `position`, which survived the 20-character
filter, and carries that segment's stripped text and computed score. -/
theorem mem_classifyClauses {text : List Char} {r : ClauseRecord}
    (hr : r ∈ classifyClauses text) :
    ∃ s, (splitDot text)[r.position]? = some s ∧
      20 ≤ (stripStr s).length ∧
      r.text = stripStr s ∧
      r.id = r.position ∧
      r.importance_score = calculateImportanceScore s r.types := by
  unfold classifyClauses at hr
  rw [List.mem_filterMap] at hr
  obtain ⟨⟨i, s⟩, hmem, hf⟩ := hr
  dsimp only at hf
  split at hf
  · exact absurd hf (by simp)
  · split at hf
    · exact absurd hf (by simp)
    · rename_i hlen _
      injection hf with hf
      subst hf
      exact ⟨s, List.mem_enum_iff_getElem?.mp hmem, by omega, rfl, rfl, rfl⟩

/-- Unpacking membership in `detectBoilerplate`: every emitted match comes
from the segment at its `id`, records the first pattern that fires on it,
and has constant confidence. -/
theorem mem_detectBoilerplate {text : List Char} {m : BoilerplateMatch}
    (hm : m ∈ detectBoilerplate text) :
    ∃ s, (splitDot text)[m.id]? = some s ∧
      firstBoilerplate s = some m.pattern_matched ∧
      m.text = stripStr s ∧ m.confidence = 4/5 := by
  unfold detectBoilerplate at hm
  rw [List.mem_filterMap] at hm
  obtain ⟨⟨i, s⟩, hmem, hf⟩ := hm
  dsimp only at hf
  split at hf
  · rename_i p hp
    injection hf with hf
    subst hf
    exact ⟨s, List.mem_enum_iff_getElem?.mp hmem, hp, rfl, rfl⟩
  · exact absurd hf (by simp)

/-- `map g` of a `filterMap f` is a sublist of `map h` of the original
list whenever `g` recovers `h` on everything `f` keeps. -/
theorem map_filterMap_sublist {α β γ : Type _} (f : α → Option β) (g : β → γ) (h : α → γ)
    (l : List α) (H : ∀ a b, f a = some b → g b = h a) :
    List.Sublist ((l.filterMap f).map g) (l.map h) := by
  induction l with
  | nil => simp
  | cons a as ih =>
    rw [List.filterMap_cons, List.map_cons]
    cases hfa : f a with
    | none => exact List.Sublist.trans ih (List.sublist_cons_self _ _)
    | some b =>
      rw [List.map_cons, H a b hfa]
      exact List.Sublist.cons₂ _ ih

/-- Boilerplate match ids strictly increase along the output, so no two
matches share a segment: at most one match per segment. -/
theorem detectBoilerplate_ids_lt (text : List Char) :
    (detectBoilerplate text).Pairwise fun a b => a.id < b.id := by
  have hsub : List.Sublist ((detectBoilerplate text).map fun m => m.id)
      ((splitDot text).enum.map Prod.fst) := by
    unfold detectBoilerplate
    apply map_filterMap_sublist
    intro a b hab
    dsimp only at hab
    split at hab
    · injection hab with hab
      subst hab
      rfl
    · exact absurd hab (by simp)
  rw [List.enum_map_fst] at hsub
  have hp : ((detectBoilerplate text).map fun m => m.id).Pairwise (· < ·) :=
    (List.pairwise_lt_range _).sublist hsub
  rwa [List.pairwise_map] at hp

/-- The importance formula is bounded: base 5 plus non-negative
adjustments, clamped above by 10. -/
theorem calculateImportanceScore_bounds (s : List Char) (ts : List String) :
    1 ≤ calculateImportanceScore s ts ∧ calculateImportanceScore s ts ≤ 10 := by
  unfold calculateImportanceScore
  dsimp only
  omega

/-- Splitting on periods always yields at least one piece. -/
theorem splitDot_ne_nil (l : List Char) : splitDot l ≠ [] := by
  induction l with
  | nil => simp [splitDot]
  | cons c rest ih =>
    unfold splitDot
    cases h : splitDot rest with
    | nil => simp
    | cons s ss => by_cases hc : c = '.' <;> simp [hc]

/-! Claim theorems. -/

/-- C1 (counterexample): the claim reads the tier counts as occurrence
counts ("a keyword appearing n times contributes n"). On the text
"may may shall" the high-tier occurrence count is 0 and the medium-tier
occurrence count (2, from two occurrences of "may") strictly exceeds the
low-tier occurrence count (1, from "shall"), so the claim requires
"medium" — but the code returns "low", because it counts each keyword at
most once per tier. -/
theorem assessRisk_not_occurrence_counts :
    tierOccCount riskHigh (lowerStr "may may shall".toList) = 0 ∧
    tierOccCount riskLow (lowerStr "may may shall".toList) <
      tierOccCount riskMedium (lowerStr "may may shall".toList) ∧
    assessRiskLevel "may may shall".toList = "low" := by decide

/-- C1 (amended): with per-keyword PRESENCE counts (each tier keyword
contributes at most 1, however many times it occurs as a substring of the
lower-cased text), the decision rule holds as stated: "high" iff the
high-tier count is positive; else "medium" iff the medium count strictly
exceeds the low count; else "low", with medium/low ties resolving to
"low". -/
theorem assessRisk_decision_rule : ∀ t : List Char,
    (assessRiskLevel t = "high" ↔ 0 < tierCount riskHigh (lowerStr t)) ∧
    (assessRiskLevel t = "medium" ↔
      (tierCount riskHigh (lowerStr t) = 0 ∧
       tierCount riskLow (lowerStr t) < tierCount riskMedium (lowerStr t))) ∧
    (assessRiskLevel t = "low" ↔
      (tierCount riskHigh (lowerStr t) = 0 ∧
       tierCount riskMedium (lowerStr t) ≤ tierCount riskLow (lowerStr t))) := by
  intro t
  have h : assessRiskLevel t =
      (if 0 < tierCount riskHigh (lowerStr t) then "high"
       else if tierCount riskLow (lowerStr t) < tierCount riskMedium (lowerStr t) then "medium"
       else "low") := rfl
  rw [h]
  split_ifs with h1 h2 <;> refine ⟨?_, ?_, ?_⟩ <;> simp_all <;> omega

/-- C2 (counterexample): on the spec's scenario text the second record's
category tags are exactly {payment} — "liability" is NOT tagged, because
"breach" is a risk keyword, not one of the liability clause patterns
(liable, liability, responsible, damages, loss), none of which occurs in
the second segment. -/
theorem scenario_no_liability_tag :
    ((classifyClauses scenarioText).map fun r => r.types) = [["termination"], ["payment"]] := by
  decide

/-- C2 (amended): the scenario text yields exactly two records: segment 0
tagged {termination} with risk "low" (no high-tier keyword, medium count
0, low count 1 from "shall"), and segment 1 tagged {payment} (from "fee")
with risk "high" (from "penalty" and "breach"). -/
theorem scenario_classification :
    classifyClauses scenarioText =
      [{ id := 0, text := "This Agreement shall terminate after 30 days".toList,
         types := ["termination"], risk_level := "low", importance_score := 8, position := 0 },
       { id := 1, text := "The Client shall pay a penalty fee for any breach".toList,
         types := ["payment"], risk_level := "high", importance_score := 9, position := 1 }] := by
  decide

/-- C3: a segment whose trimmed length is below 20 never yields a
ClauseRecord — every record's text is the stripped segment at its
position and has length at least 20 — while the timeline and boilerplate
passes apply no length filter: on `shortSegText`, the 6-character segment
"expiry" appears in the timeline results and the 12-character segment
"severability" appears in the boilerplate results. -/
theorem short_segment_asymmetry :
    (∀ (text : List Char) (r : ClauseRecord), r ∈ classifyClauses text →
       20 ≤ r.text.length ∧ ((splitDot text)[r.position]?).map stripStr = some r.text) ∧
    (∃ e ∈ extractTimelineInfo shortSegText, e.text.length < 20) ∧
    (∃ b ∈ detectBoilerplate shortSegText, b.text.length < 20) := by
  refine ⟨?_, ?_, ?_⟩
  · intro text r hr
    obtain ⟨s, hget, hlen, htext, -, -⟩ := mem_classifyClauses hr
    constructor
    · rw [htext]
      exact hlen
    · rw [hget, Option.map_some', htext]
  · exact ⟨{ sentence_id := 0, text := "expiry".toList, dates := [], durations := [],
             deadlines := ["expiry"] }, by decide, by decide⟩
  · have h : detectBoilerplate shortSegText =
        [{ id := 1, text := "severability".toList, pattern_matched := "severability",
           confidence := 4/5 }] := rfl
    refine ⟨{ id := 1, text := "severability".toList, pattern_matched := "severability",
              confidence := 4/5 }, ?_, ?_⟩
    · rw [h]
      exact List.mem_singleton_self _
    · decide

/-- C3 (witness): the first conjunct of `short_segment_asymmetry`
instantiated at the scenario text and its first record. -/
theorem short_segment_asymmetry_witness :
    20 ≤ ("This Agreement shall terminate after 30 days".toList).length ∧
    ((splitDot scenarioText)[(0 : Nat)]?).map stripStr =
      some "This Agreement shall terminate after 30 days".toList :=
  short_segment_asymmetry.1 scenarioText
    { id := 0, text := "This Agreement shall terminate after 30 days".toList,
      types := ["termination"], risk_level := "low", importance_score := 8, position := 0 }
    (by decide)

/-- C4: every record's importance score lies in [1, 10] and equals the
scoring formula (`calculateImportanceScore`) applied to the raw segment
at the record's position and the record's tags: base 5, +2 per important
tag, +1 for length over 200, plus the keyword bonus capped at 3, clamped
to 10. -/
theorem importance_score_bounds : ∀ (text : List Char) (r : ClauseRecord),
    r ∈ classifyClauses text →
    1 ≤ r.importance_score ∧ r.importance_score ≤ 10 ∧
    ((splitDot text)[r.position]?).map (fun s => calculateImportanceScore s r.types) =
      some r.importance_score := by
  intro text r hr
  obtain ⟨s, hget, -, -, -, hscore⟩ := mem_classifyClauses hr
  refine ⟨?_, ?_, ?_⟩
  · exact hscore ▸ (calculateImportanceScore_bounds s r.types).1
  · exact hscore ▸ (calculateImportanceScore_bounds s r.types).2
  · rw [hget, Option.map_some', hscore]

/-- C4 (witness): `importance_score_bounds` instantiated at the scenario
text and its second record (score 9). -/
theorem importance_score_bounds_witness :
    1 ≤ 9 ∧ 9 ≤ 10 ∧
    ((splitDot scenarioText)[(1 : Nat)]?).map
        (fun s => calculateImportanceScore s ["payment"]) = some 9 :=
  importance_score_bounds scenarioText
    { id := 1, text := "The Client shall pay a penalty fee for any breach".toList,
      types := ["payment"], risk_level := "high", importance_score := 9, position := 1 }
    (by decide)

/-- C5: document comparison is symmetric under swapping the two texts:
the common type set is unchanged and the two unique type sets swap. -/
theorem compare_documents_symm : ∀ A B : List Char,
    (compareDocuments A B).common_types = (compareDocuments B A).common_types ∧
    (compareDocuments A B).doc1_unique_types = (compareDocuments B A).doc2_unique_types ∧
    (compareDocuments A B).doc2_unique_types = (compareDocuments B A).doc1_unique_types := by
  intro A B
  exact ⟨Finset.inter_comm _ _, rfl, rfl⟩

/-- C6: the assembled `avg_importance_score` statistic equals 0 when
classification produced no records (the zero-division case is
special-cased, and the definition is total so no error can be raised),
and otherwise equals the mean of the records' importance scores rounded
to two decimals. -/
theorem avg_importance_score_spec : ∀ text : List Char,
    (classifyClauses text = [] → avgImportanceScore text = 0) ∧
    (classifyClauses text ≠ [] →
      avgImportanceScore text = round2 (importanceMean text)) := by
  intro text
  unfold avgImportanceScore importanceMean
  constructor
  · intro h
    simp [h]
  · intro h
    rw [if_neg (by simpa using h)]

/-- C6 (witness): `avg_importance_score_spec` at the empty document (no
records, average 0) and at the scenario text (two records). -/
theorem avg_importance_score_spec_witness :
    avgImportanceScore [] = 0 ∧
    avgImportanceScore scenarioText = round2 (importanceMean scenarioText) :=
  ⟨(avg_importance_score_spec []).1 (by decide),
   (avg_importance_score_spec scenarioText).2 (by decide)⟩

/-- C7: on the Delaware sentence, boilerplate detection emits exactly one
match, for the governing-law pattern, with confidence 0.8; in general
every match carries constant confidence 0.8 and records the FIRST pattern
(in the fixed order) that fires on its segment, and match ids strictly
increase, so each segment yields at most one match; no length filter is
applied (the 12-character match in `short_segment_asymmetry` shows short
segments pass through). -/
theorem detect_boilerplate_spec :
    detectBoilerplate delawareText =
      [{ id := 0, text := "This agreement shall be governed by the laws of Delaware".toList,
         pattern_matched := "this agreement shall be governed by", confidence := 4/5 }] ∧
    (∀ (text : List Char) (m : BoilerplateMatch), m ∈ detectBoilerplate text →
      m.confidence = 4/5 ∧
      ((splitDot text)[m.id]?).map firstBoilerplate = some (some m.pattern_matched)) ∧
    (∀ text : List Char, (detectBoilerplate text).Pairwise fun a b => a.id < b.id) := by
  refine ⟨rfl, ?_, detectBoilerplate_ids_lt⟩
  intro text m hm
  obtain ⟨s, hget, hfind, -, hconf⟩ := mem_detectBoilerplate hm
  refine ⟨hconf, ?_⟩
  rw [hget, Option.map_some', hfind]

/-- C7 (witness): the general part of `detect_boilerplate_spec`
instantiated at the Delaware sentence and its single match. -/
theorem detect_boilerplate_spec_witness :
    (4/5 : ℚ) = 4/5 ∧
    ((splitDot delawareText)[(0 : Nat)]?).map firstBoilerplate =
      some (some "this agreement shall be governed by") :=
  detect_boilerplate_spec.2.1 delawareText
    { id := 0, text := "This agreement shall be governed by the laws of Delaware".toList,
      pattern_matched := "this agreement shall be governed by", confidence := 4/5 }
    (by rw [detect_boilerplate_spec.1]; exact List.mem_singleton_self _)

/-- C8: in the non-fallback path the tone profile's `overall_sentiment`
is the fixed label "formal" for every input text; the computed formality,
assertiveness and risk-tone values never influence it. -/
theorem analyze_tone_sentiment_formal : ∀ text : List Char,
    (analyzeTone text).overall_sentiment = "formal" :=
  fun _ => rfl

/-- C9: classification never produces more records than there are
period-split segments. -/
theorem classify_length_le_segments : ∀ text : List Char,
    (classifyClauses text).length ≤ (splitDot text).length := by
  intro text
  unfold classifyClauses
  calc ((splitDot text).enum.filterMap _).length ≤ (splitDot text).enum.length :=
        List.length_filterMap_le _ _
    _ = (splitDot text).length := List.enum_length

/-- C10: splitting any string on the period character yields at least one
segment, so the sampled segment count the tone analyzer divides by is
always at least 1 and the score normalization never divides by zero. -/
theorem tone_sentences_nonempty : ∀ text : List Char,
    1 ≤ (toneSentences text).length := by
  intro text
  unfold toneSentences
  rw [List.length_take]
  have h1 : 0 < (splitDot text).length := List.length_pos.mpr (splitDot_ne_nil text)
  omega

end ClauseWise
